import Mathlib

/-!
Verification of the `sending_stone_stack` firmware (ESP32 "speaking stone"
skeleton) against its natural-language specification.

The development shallowly embeds the three C translation units under
`firmware/main/`:

* `wifi.c` — station-mode Wi-Fi bring-up (`wifi_init_sta`) and the shared
  event handler (`wifi_event_handler`);
* `main.c` — the startup routine (`app_main`): NVS initialization with an
  erase-and-retry path, Wi-Fi bring-up, and spawning of the streaming task;
* `audio_stream.c` — the placeholder streaming task (`audio_stream_task`).

Calls into the ESP-IDF SDK are modelled by an environment record holding the
status each SDK call returns; each embedded routine returns, next to the value
the C function returns, the trace of SDK sub-steps (and log lines) it
performed, so that ordering and fail-fast properties can be stated directly.
Machine integers (`esp_err_t`, event ids) are modelled as `Int`; the octets of
an IPv4 address as `Fin 256`.
-/

namespace SendingStoneStack

/-! ### ESP-IDF status codes used by the firmware (values from `esp_err.h` /
`nvs.h`) -/

/-- Success status `ESP_OK`. -/
def ESP_OK : Int := 0

/-- Generic failure status `ESP_FAIL`. -/
def ESP_FAIL : Int := -1

/-- Status `ESP_ERR_INVALID_STATE` (`0x103`); returned by
`esp_event_loop_create_default` when the default event loop already exists. -/
def ESP_ERR_INVALID_STATE : Int := 0x103

/-- Status `ESP_ERR_NVS_NO_FREE_PAGES` (`ESP_ERR_NVS_BASE + 0x0d`). -/
def ESP_ERR_NVS_NO_FREE_PAGES : Int := 0x110d

/-- Status `ESP_ERR_NVS_NEW_VERSION_FOUND` (`ESP_ERR_NVS_BASE + 0x10`). -/
def ESP_ERR_NVS_NEW_VERSION_FOUND : Int := 0x1110

/-! ### Sub-steps of `wifi_init_sta` (wifi.c, lines 29–95)

Each constructor is one SDK call the routine performs, in source order. -/

/-- The SDK sub-steps invoked by `wifi_init_sta`. -/
inductive Step
  | netifInit
  | eventLoopCreateDefault
  | netifCreateDefaultWifiSta
  | wifiInit
  | registerWifiHandler
  | registerIpHandler
  | setMode
  | setConfig
  | wifiStart
deriving DecidableEq, Fintype

/-- Environment for one call of `wifi_init_sta`: the status each SDK call
would return if reached.  `netif_create_ok` models whether
`esp_netif_create_default_wifi_sta` returns a non-NULL pointer. -/
structure WifiEnv where
  netif_init_ret : Int
  event_loop_create_ret : Int
  netif_create_ok : Bool
  wifi_init_ret : Int
  register_wifi_ret : Int
  register_ip_ret : Int
  set_mode_ret : Int
  set_config_ret : Int
  wifi_start_ret : Int
deriving DecidableEq

/-- Shallow embedding of `wifi_init_sta` (wifi.c, lines 29–95).  Returns the
`esp_err_t` result together with the trace of SDK sub-steps invoked, mirroring
the C control flow: each call is followed by an `if (err != ESP_OK) return
err;` check, except `esp_event_loop_create_default`, whose
`ESP_ERR_INVALID_STATE` result is tolerated, and
`esp_netif_create_default_wifi_sta`, whose NULL result yields `ESP_FAIL`. -/
def wifi_init_sta (env : WifiEnv) : Int × List Step :=
  let tr := [Step.netifInit]
  if env.netif_init_ret ≠ ESP_OK then (env.netif_init_ret, tr) else
  let tr := tr ++ [Step.eventLoopCreateDefault]
  if env.event_loop_create_ret ≠ ESP_OK ∧ env.event_loop_create_ret ≠ ESP_ERR_INVALID_STATE then
    (env.event_loop_create_ret, tr) else
  let tr := tr ++ [Step.netifCreateDefaultWifiSta]
  if !env.netif_create_ok then (ESP_FAIL, tr) else
  let tr := tr ++ [Step.wifiInit]
  if env.wifi_init_ret ≠ ESP_OK then (env.wifi_init_ret, tr) else
  let tr := tr ++ [Step.registerWifiHandler]
  if env.register_wifi_ret ≠ ESP_OK then (env.register_wifi_ret, tr) else
  let tr := tr ++ [Step.registerIpHandler]
  if env.register_ip_ret ≠ ESP_OK then (env.register_ip_ret, tr) else
  let tr := tr ++ [Step.setMode]
  if env.set_mode_ret ≠ ESP_OK then (env.set_mode_ret, tr) else
  let tr := tr ++ [Step.setConfig]
  if env.set_config_ret ≠ ESP_OK then (env.set_config_ret, tr) else
  let tr := tr ++ [Step.wifiStart]
  if env.wifi_start_ret ≠ ESP_OK then (env.wifi_start_ret, tr) else
  (ESP_OK, tr)

/-- The order in which `wifi_init_sta` performs its sub-steps on a fully
successful run (source order of the SDK calls in wifi.c). -/
def bringUpOrder : List Step :=
  [Step.netifInit, Step.eventLoopCreateDefault, Step.netifCreateDefaultWifiSta,
   Step.wifiInit, Step.registerWifiHandler, Step.registerIpHandler,
   Step.setMode, Step.setConfig, Step.wifiStart]

/-- Position of a sub-step in the source order of `wifi_init_sta`. -/
def stepIdx : Step → Nat
  | .netifInit => 0
  | .eventLoopCreateDefault => 1
  | .netifCreateDefaultWifiSta => 2
  | .wifiInit => 3
  | .registerWifiHandler => 4
  | .registerIpHandler => 5
  | .setMode => 6
  | .setConfig => 7
  | .wifiStart => 8

/-- The status a sub-step of `wifi_init_sta` returns in a given environment
(`esp_netif_create_default_wifi_sta` returning NULL is surfaced by the
routine as `ESP_FAIL`). -/
def stepRet (env : WifiEnv) : Step → Int
  | .netifInit => env.netif_init_ret
  | .eventLoopCreateDefault => env.event_loop_create_ret
  | .netifCreateDefaultWifiSta => if env.netif_create_ok then ESP_OK else ESP_FAIL
  | .wifiInit => env.wifi_init_ret
  | .registerWifiHandler => env.register_wifi_ret
  | .registerIpHandler => env.register_ip_ret
  | .setMode => env.set_mode_ret
  | .setConfig => env.set_config_ret
  | .wifiStart => env.wifi_start_ret

/-- A sub-step fails fatally for `wifi_init_sta`: it returns a non-success
status, and — for `esp_event_loop_create_default` only — a status other than
the tolerated `ESP_ERR_INVALID_STATE`. -/
def stepFails (env : WifiEnv) (s : Step) : Prop :=
  stepRet env s ≠ ESP_OK ∧
    (s = Step.eventLoopCreateDefault → stepRet env s ≠ ESP_ERR_INVALID_STATE)

instance (env : WifiEnv) (s : Step) : Decidable (stepFails env s) := by
  unfold stepFails; infer_instance

/-- An environment in which every SDK call of `wifi_init_sta` succeeds. -/
def envAllOk : WifiEnv := ⟨0, 0, true, 0, 0, 0, 0, 0, 0⟩

/-- An environment in which `esp_event_loop_create_default` reports that the
default event loop already exists and every other SDK call succeeds. -/
def envLoopExists : WifiEnv := ⟨0, 0x103, true, 0, 0, 0, 0, 0, 0⟩

/-- An environment in which `esp_wifi_init` fails with `ESP_FAIL` and every
earlier SDK call succeeds. -/
def envWifiInitFails : WifiEnv := ⟨0, 0, true, -1, 0, 0, 0, 0, 0⟩

/-- The sub-step order stated by the specification for a successful run of
`wifi_init_sta`: configuration application before mode selection.  (The source
performs `esp_wifi_set_mode` before `esp_wifi_set_config`.) -/
def claimedBringUpOrder : List Step :=
  [Step.netifInit, Step.eventLoopCreateDefault, Step.netifCreateDefaultWifiSta,
   Step.wifiInit, Step.registerWifiHandler, Step.registerIpHandler,
   Step.setConfig, Step.setMode, Step.wifiStart]

/-- The environment obtained by replacing the status of
`esp_event_loop_create_default` with `r`. -/
def setLoopRet (env : WifiEnv) (r : Int) : WifiEnv :=
  ⟨env.netif_init_ret, r, env.netif_create_ok, env.wifi_init_ret, env.register_wifi_ret,
   env.register_ip_ret, env.set_mode_ret, env.set_config_ret, env.wifi_start_ret⟩

/-! ### The event handler `wifi_event_handler` (wifi.c, lines 14–27) -/

/-- Event id `WIFI_EVENT_STA_START` (`wifi_event_t`). -/
def WIFI_EVENT_STA_START : Int := 2

/-- Event id `WIFI_EVENT_STA_DISCONNECTED` (`wifi_event_t`). -/
def WIFI_EVENT_STA_DISCONNECTED : Int := 5

/-- Event id `IP_EVENT_STA_GOT_IP` (`ip_event_t`). -/
def IP_EVENT_STA_GOT_IP : Int := 0

/-- The two event bases the handler is registered for (`WIFI_EVENT` and
`IP_EVENT` are distinct `esp_event_base_t` pointers). -/
inductive EventBase
  | wifiEvent
  | ipEvent
deriving DecidableEq

/-- Payload of an `IP_EVENT_STA_GOT_IP` event (`ip_event_got_ip_t`): the four
octets of `event->ip_info.ip`, in address order (the order in which
`esp_ip4addr_ntoa` prints them). -/
structure GotIpPayload where
  oct0 : Fin 256
  oct1 : Fin 256
  oct2 : Fin 256
  oct3 : Fin 256
deriving DecidableEq

/-- The `void *event_data` argument of the handler; the C code casts it to
`ip_event_got_ip_t *` only in the `IP_EVENT_STA_GOT_IP` branch, and the event
system delivers a `GotIpPayload` exactly with that event. -/
inductive EventData
  | noData
  | gotIp (p : GotIpPayload)
deriving DecidableEq

/-- Observable actions of one invocation of `wifi_event_handler`. -/
inductive HandlerAction
  | wifiConnect
  | logWarn (msg : String)
  | logInfo (msg : String)
deriving DecidableEq

/-- Digits written by the inner do-while loop of lwIP's `ip4addr_ntoa_r`
(called via `esp_ip4addr_ntoa`): decimal digits of `n`, least significant
first; the loop body runs once per digit, so any fuel above the digit count —
`n + 1` suffices — makes the fuel bound unreachable. -/
def ntoaDigitsRevAux : Nat → Nat → List Char
  | 0, _ => []
  | fuel + 1, n =>
      let rem := n % 10
      let n2 := n / 10
      if n2 = 0 then [Char.ofNat (48 + rem)]
      else Char.ofNat (48 + rem) :: ntoaDigitsRevAux fuel n2

/-- Decimal digits of `n`, least significant first (the do-while loop of
`ip4addr_ntoa_r` with its unreachable fuel bound instantiated). -/
def ntoaDigitsRev (n : Nat) : List Char := ntoaDigitsRevAux (n + 1) n

/-- Characters `ip4addr_ntoa_r` emits for a single octet: the digits gathered
least-significant-first in `inv[]`, then written out in reverse. -/
def byteChars (b : Nat) : List Char := (ntoaDigitsRev b).reverse

/-- Shallow embedding of `esp_ip4addr_ntoa` on the four octets of an IPv4
address: each octet's digits, octets separated by a dot character. -/
def esp_ip4addr_ntoa (p : GotIpPayload) : String :=
  String.mk (byteChars p.oct0.val ++ '.' :: byteChars p.oct1.val ++
    '.' :: byteChars p.oct2.val ++ '.' :: byteChars p.oct3.val)

/-- Specification-side rendering of an IPv4 address in standard dotted-decimal
form: the decimal numerals of the four octets joined by dots. -/
def dottedDecimal (p : GotIpPayload) : String :=
  toString p.oct0.val ++ "." ++ toString p.oct1.val ++ "." ++
    toString p.oct2.val ++ "." ++ toString p.oct3.val

/-- Shallow embedding of `wifi_event_handler` (wifi.c, lines 14–27).  Returns
the list of observable actions of one invocation, mirroring the C
if/else-if dispatch on `(event_base, event_id)`. -/
def wifi_event_handler (event_base : EventBase) (event_id : Int)
    (event_data : EventData) : List HandlerAction :=
  if event_base = EventBase.wifiEvent ∧ event_id = WIFI_EVENT_STA_START then
    [HandlerAction.wifiConnect]
  else if event_base = EventBase.wifiEvent ∧ event_id = WIFI_EVENT_STA_DISCONNECTED then
    [HandlerAction.logWarn "Wi-Fi disconnected, retrying...", HandlerAction.wifiConnect]
  else if event_base = EventBase.ipEvent ∧ event_id = IP_EVENT_STA_GOT_IP then
    match event_data with
    | EventData.gotIp p =>
        [HandlerAction.logInfo ("Connected, got IP: " ++ esp_ip4addr_ntoa p)]
    | EventData.noData => []
  else []

/-! ### Station configuration (wifi.c, lines 62–79)

`wifi_config_t wifi_config = { .sta = { ... } }` zero-initializes the `ssid`
and `password` byte arrays, then `strlcpy` copies the build-time credentials
into them.  Field sizes are those of `wifi_sta_config_t`: `uint8_t ssid[32]`,
`uint8_t password[64]`.  Credentials are modelled as the byte lists of the
configured C strings (the bytes before the terminating NUL). -/

/-- Size of the `ssid` field of `wifi_sta_config_t`. -/
def ssidFieldSize : Nat := 32

/-- Size of the `password` field of `wifi_sta_config_t`. -/
def passwordFieldSize : Nat := 64

/-- Authentication-mode threshold `WIFI_AUTH_WPA2_PSK` (`wifi_auth_mode_t`). -/
def WIFI_AUTH_WPA2_PSK : Nat := 3

/-- Bytes of a `size`-byte zero-initialized buffer after
`strlcpy(buf, src, size)`: at most `size - 1` source bytes are copied and a
NUL is written after them; the remaining bytes keep their initial zero. -/
def strlcpy_zeroed (src : List Nat) (size : Nat) : List Nat :=
  src.take (size - 1) ++ List.replicate (size - min src.length (size - 1)) 0

/-- The parts of `wifi_config_t.sta` the firmware sets: the two credential
byte arrays, the authentication threshold and the PMF flags. -/
structure WifiStaConfig where
  ssid : List Nat
  password : List Nat
  threshold_authmode : Nat
  pmf_capable : Bool
  pmf_required : Bool
deriving DecidableEq

/-- The `wifi_config_t.sta` value `wifi_init_sta` passes to
`esp_wifi_set_config`, as a function of the build-time credentials
(`CONFIG_SPEAKING_STONE_WIFI_SSID`, `CONFIG_SPEAKING_STONE_WIFI_PASSWORD`):
designated-initializer zeroing, `.threshold.authmode = WIFI_AUTH_WPA2_PSK`,
`.pmf_cfg = { .capable = true, .required = false }`, then the two `strlcpy`
calls. -/
def build_wifi_config (ssid password : List Nat) : WifiStaConfig :=
  ⟨strlcpy_zeroed ssid ssidFieldSize, strlcpy_zeroed password passwordFieldSize,
   WIFI_AUTH_WPA2_PSK, true, false⟩

/-! ### The streaming task `audio_stream_task` (audio_stream.c, lines 8–21) -/

/-- Message-type label from protocol.h. -/
def MSG_TYPE_AUDIO_CHUNK : String := "MSG_TYPE_AUDIO_CHUNK"

/-- Message-type label from protocol.h. -/
def MSG_TYPE_TTS_CHUNK : String := "MSG_TYPE_TTS_CHUNK"

/-- Message-type label from protocol.h. -/
def MSG_TYPE_CONTROL : String := "MSG_TYPE_CONTROL"

/-- Observable actions of the streaming task: informational log lines and the
`vTaskDelay` suspension (argument in milliseconds, as passed to
`pdMS_TO_TICKS`). -/
inductive TaskAction
  | logInfo (msg : String)
  | delayMs (ms : Nat)
deriving DecidableEq

/-- The "send" log line of one loop iteration
(`ESP_LOGI(TAG, "Sending fake audio chunk (%s)", MSG_TYPE_AUDIO_CHUNK)`). -/
def audio_send_log : TaskAction :=
  TaskAction.logInfo ("Sending fake audio chunk (" ++ MSG_TYPE_AUDIO_CHUNK ++ ")")

/-- The "receive" log line of one loop iteration
(`ESP_LOGI(TAG, "Pretend receiving TTS data (%s)", MSG_TYPE_TTS_CHUNK)`). -/
def audio_receive_log : TaskAction :=
  TaskAction.logInfo ("Pretend receiving TTS data (" ++ MSG_TYPE_TTS_CHUNK ++ ")")

/-- Actions of one execution of the `while (1)` body of `audio_stream_task`:
the send log, the receive log, then `vTaskDelay(pdMS_TO_TICKS(1000))`. -/
def audio_stream_body : List TaskAction :=
  [audio_send_log, audio_receive_log, TaskAction.delayMs 1000]

/-- The guard of the task's loop, `while (1)`. -/
def audio_stream_guard : Bool := true

/-- Status of the task at one loop iteration: either it runs the body once
more (emitting its actions) or it has left the loop and terminated. -/
inductive TaskStatus
  | running (acts : List TaskAction)
  | terminated
deriving DecidableEq

/-- Shallow embedding of `audio_stream_task` (audio_stream.c, lines 8–21) as
a step function on iteration indices: at every iteration the constant guard is
re-tested; while it holds the body's actions are emitted.  The task holds no
state across iterations, so the iteration index is the only argument. -/
def audio_stream_task (_n : Nat) : TaskStatus :=
  if audio_stream_guard then TaskStatus.running audio_stream_body
  else TaskStatus.terminated

/-! ### The startup routine `app_main` (main.c, lines 14–31) -/

/-- Environment for one run of `app_main`: the statuses the SDK calls of
main.c would return if reached, plus the `WifiEnv` consumed by the call to
`wifi_init_sta`.  `task_create_pass` models `xTaskCreate` returning
`pdPASS`. -/
structure MainEnv where
  nvs_init_ret1 : Int
  nvs_erase_ret : Int
  nvs_init_ret2 : Int
  wifiEnv : WifiEnv
  task_create_pass : Bool
deriving DecidableEq

/-- Observable actions of `app_main`.  `callTaskCreate` records the
`xTaskCreate` invocation together with whether it returned `pdPASS` (the task
runs exactly when it was created successfully). -/
inductive MainAction
  | nvsFlashInit
  | nvsFlashErase
  | logInfo (msg : String)
  | logError (msg : String)
  | callWifiInitSta
  | callTaskCreate (name : String) (created : Bool)
deriving DecidableEq

/-- How a run of `app_main` ends: returning normally to the platform runtime,
or halting through the `ESP_ERROR_CHECK` abort convention. -/
inductive MainOutcome
  | returned
  | halted
deriving DecidableEq

/-- Continuation of `app_main` after the NVS block (main.c, lines 20–31):
`ESP_ERROR_CHECK(ret)`, the Wi-Fi log line, `ESP_ERROR_CHECK(wifi_init_sta())`,
the task log line, `xTaskCreate(audio_stream_task, "audio_stream", ...)`, and
the non-fatal error log when task creation fails. -/
def app_main_after_nvs (env : MainEnv) (ret : Int) (tr : List MainAction) :
    MainOutcome × List MainAction :=
  if ret ≠ ESP_OK then (MainOutcome.halted, tr) else
  let tr := tr ++ [MainAction.logInfo "Initializing Wi-Fi..."]
  let tr := tr ++ [MainAction.callWifiInitSta]
  if (wifi_init_sta env.wifiEnv).1 ≠ ESP_OK then (MainOutcome.halted, tr) else
  let tr := tr ++ [MainAction.logInfo "Starting audio stream task..."]
  let tr := tr ++ [MainAction.callTaskCreate "audio_stream" env.task_create_pass]
  if env.task_create_pass then (MainOutcome.returned, tr)
  else (MainOutcome.returned, tr ++ [MainAction.logError "Failed to create audio_stream_task"])

/-- Shallow embedding of `app_main` (main.c, lines 14–31).  The NVS block:
`ret = nvs_flash_init()`; if `ret` is `ESP_ERR_NVS_NO_FREE_PAGES` or
`ESP_ERR_NVS_NEW_VERSION_FOUND` then `ESP_ERROR_CHECK(nvs_flash_erase())`
(halting if the erase fails) and `ret = nvs_flash_init()` again; then the
continuation `app_main_after_nvs`. -/
def app_main (env : MainEnv) : MainOutcome × List MainAction :=
  let ret := env.nvs_init_ret1
  let tr := [MainAction.nvsFlashInit]
  if ret = ESP_ERR_NVS_NO_FREE_PAGES ∨ ret = ESP_ERR_NVS_NEW_VERSION_FOUND then
    let tr := tr ++ [MainAction.nvsFlashErase]
    if env.nvs_erase_ret ≠ ESP_OK then (MainOutcome.halted, tr)
    else app_main_after_nvs env env.nvs_init_ret2 (tr ++ [MainAction.nvsFlashInit])
  else app_main_after_nvs env ret tr

/-- The NVS block of `app_main` hands a success status to `ESP_ERROR_CHECK`:
either the first `nvs_flash_init` succeeded outright, or it reported
no-free-pages/new-version-found and both the erase and the retry succeeded. -/
def nvsPhaseOk (env : MainEnv) : Prop :=
  if env.nvs_init_ret1 = ESP_ERR_NVS_NO_FREE_PAGES ∨
      env.nvs_init_ret1 = ESP_ERR_NVS_NEW_VERSION_FOUND then
    env.nvs_erase_ret = ESP_OK ∧ env.nvs_init_ret2 = ESP_OK
  else env.nvs_init_ret1 = ESP_OK

instance (env : MainEnv) : Decidable (nvsPhaseOk env) := by
  unfold nvsPhaseOk; infer_instance

/-! ## Helper lemmas -/

lemma ret_ok_of_not_fails (env : WifiEnv) (s : Step) (hs : s ≠ Step.eventLoopCreateDefault)
    (h : ¬ stepFails env s) : stepRet env s = ESP_OK := by
  by_contra hn
  exact h ⟨hn, fun he => absurd he hs⟩

lemma loop_ret_of_not_fails (env : WifiEnv)
    (h : ¬ stepFails env Step.eventLoopCreateDefault) :
    env.event_loop_create_ret = ESP_OK ∨ env.event_loop_create_ret = ESP_ERR_INVALID_STATE := by
  by_contra hn
  push_neg at hn
  exact h ⟨by simpa [stepRet] using hn.1, fun _ => by simpa [stepRet] using hn.2⟩

lemma netif_ok_of_not_fails (env : WifiEnv)
    (h : ¬ stepFails env Step.netifCreateDefaultWifiSta) : env.netif_create_ok = true := by
  cases hc : env.netif_create_ok with
  | true => rfl
  | false =>
      exact absurd ⟨by simp [stepRet, hc, ESP_OK, ESP_FAIL], fun he => absurd he (by decide)⟩ h

/-! ## Claim C1 — fail-fast ordering of `wifi_init_sta`

The claim counts `esp_event_loop_create_default` returning any non-success
status as a failing sub-step; the code tolerates its `ESP_ERR_INVALID_STATE`
result (wifi.c, line 38), so the claim as stated is refuted at
`envLoopExists`.  The amended claim (a failing event-loop creation is one
returning a status other than success or already-exists/invalid-state) is
proved below. -/

/-- C1 (counterexample to the claim as stated): in `envLoopExists` the
event-loop-creation sub-step fails — it returns the non-success status
`ESP_ERR_INVALID_STATE` — yet `wifi_init_sta` does not return a non-success
status at that point: it invokes subsequent sub-steps (e.g. `esp_wifi_init`)
and returns `ESP_OK`. -/
theorem C1_claim_counterexample :
    envLoopExists.event_loop_create_ret ≠ ESP_OK ∧
      (wifi_init_sta envLoopExists).1 = ESP_OK ∧
      Step.wifiInit ∈ (wifi_init_sta envLoopExists).2 := by decide

/-- C1 (amended): for every call to `wifi_init_sta`, if sub-step `s` is the
first failing sub-step — where every sub-step fails by returning a non-success
status, except event-loop creation, which fails by returning a status other
than success or the tolerated already-exists/invalid-state — then the routine
returns that sub-step's non-success status immediately, the trace being
exactly the sub-steps up to and including `s`: no subsequent sub-step is
invoked. -/
theorem C1_fail_fast (env : WifiEnv) (s : Step) (hfail : stepFails env s)
    (hfirst : ∀ t : Step, stepIdx t < stepIdx s → ¬ stepFails env t) :
    (wifi_init_sta env).1 = stepRet env s ∧ (wifi_init_sta env).1 ≠ ESP_OK ∧
      (wifi_init_sta env).2 = bringUpOrder.take (stepIdx s + 1) := by
  obtain ⟨hf, hfl⟩ := hfail
  cases s with
  | netifInit =>
      simp only [stepRet, ESP_OK, ESP_FAIL, ESP_ERR_INVALID_STATE] at hf
      simp [wifi_init_sta, hf, stepRet, bringUpOrder, stepIdx, ESP_OK, ESP_FAIL,
        ESP_ERR_INVALID_STATE]
  | eventLoopCreateDefault =>
      have h0 := ret_ok_of_not_fails env Step.netifInit (by decide) (hfirst _ (by decide))
      simp only [stepRet, ESP_OK, ESP_FAIL, ESP_ERR_INVALID_STATE] at hf h0
      have hfl2 : env.event_loop_create_ret ≠ 259 := by
        simpa [stepRet, ESP_ERR_INVALID_STATE] using hfl rfl
      simp [wifi_init_sta, h0, hf, hfl2, stepRet, bringUpOrder, stepIdx, ESP_OK, ESP_FAIL,
        ESP_ERR_INVALID_STATE]
  | netifCreateDefaultWifiSta =>
      have h0 := ret_ok_of_not_fails env Step.netifInit (by decide) (hfirst _ (by decide))
      have h1 := loop_ret_of_not_fails env (hfirst _ (by decide))
      simp only [stepRet, ESP_OK, ESP_FAIL, ESP_ERR_INVALID_STATE] at hf h0
      have hc : env.netif_create_ok = false := by
        cases hc : env.netif_create_ok with
        | false => rfl
        | true => exact absurd (by simp [stepRet, hc]) hf
      rcases h1 with h1 | h1 <;>
        simp [wifi_init_sta, h0, h1, hc, stepRet, bringUpOrder, stepIdx, ESP_OK,
          ESP_FAIL, ESP_ERR_INVALID_STATE]
  | wifiInit =>
      have h0 := ret_ok_of_not_fails env Step.netifInit (by decide) (hfirst _ (by decide))
      have h1 := loop_ret_of_not_fails env (hfirst _ (by decide))
      have h2 := netif_ok_of_not_fails env (hfirst _ (by decide))
      simp only [stepRet, ESP_OK, ESP_FAIL, ESP_ERR_INVALID_STATE] at hf h0
      rcases h1 with h1 | h1 <;>
        simp [wifi_init_sta, h0, h1, h2, hf, stepRet, bringUpOrder, stepIdx, ESP_OK,
          ESP_FAIL, ESP_ERR_INVALID_STATE]
  | registerWifiHandler =>
      have h0 := ret_ok_of_not_fails env Step.netifInit (by decide) (hfirst _ (by decide))
      have h1 := loop_ret_of_not_fails env (hfirst _ (by decide))
      have h2 := netif_ok_of_not_fails env (hfirst _ (by decide))
      have h3 := ret_ok_of_not_fails env Step.wifiInit (by decide) (hfirst _ (by decide))
      simp only [stepRet, ESP_OK, ESP_FAIL, ESP_ERR_INVALID_STATE] at hf h0 h3
      rcases h1 with h1 | h1 <;>
        simp [wifi_init_sta, h0, h1, h2, h3, hf, stepRet, bringUpOrder, stepIdx, ESP_OK,
          ESP_FAIL, ESP_ERR_INVALID_STATE]
  | registerIpHandler =>
      have h0 := ret_ok_of_not_fails env Step.netifInit (by decide) (hfirst _ (by decide))
      have h1 := loop_ret_of_not_fails env (hfirst _ (by decide))
      have h2 := netif_ok_of_not_fails env (hfirst _ (by decide))
      have h3 := ret_ok_of_not_fails env Step.wifiInit (by decide) (hfirst _ (by decide))
      have h4 := ret_ok_of_not_fails env Step.registerWifiHandler (by decide) (hfirst _ (by decide))
      simp only [stepRet, ESP_OK, ESP_FAIL, ESP_ERR_INVALID_STATE] at hf h0 h3 h4
      rcases h1 with h1 | h1 <;>
        simp [wifi_init_sta, h0, h1, h2, h3, h4, hf, stepRet, bringUpOrder, stepIdx, ESP_OK,
          ESP_FAIL, ESP_ERR_INVALID_STATE]
  | setMode =>
      have h0 := ret_ok_of_not_fails env Step.netifInit (by decide) (hfirst _ (by decide))
      have h1 := loop_ret_of_not_fails env (hfirst _ (by decide))
      have h2 := netif_ok_of_not_fails env (hfirst _ (by decide))
      have h3 := ret_ok_of_not_fails env Step.wifiInit (by decide) (hfirst _ (by decide))
      have h4 := ret_ok_of_not_fails env Step.registerWifiHandler (by decide) (hfirst _ (by decide))
      have h5 := ret_ok_of_not_fails env Step.registerIpHandler (by decide) (hfirst _ (by decide))
      simp only [stepRet, ESP_OK, ESP_FAIL, ESP_ERR_INVALID_STATE] at hf h0 h3 h4 h5
      rcases h1 with h1 | h1 <;>
        simp [wifi_init_sta, h0, h1, h2, h3, h4, h5, hf, stepRet, bringUpOrder, stepIdx, ESP_OK,
          ESP_FAIL, ESP_ERR_INVALID_STATE]
  | setConfig =>
      have h0 := ret_ok_of_not_fails env Step.netifInit (by decide) (hfirst _ (by decide))
      have h1 := loop_ret_of_not_fails env (hfirst _ (by decide))
      have h2 := netif_ok_of_not_fails env (hfirst _ (by decide))
      have h3 := ret_ok_of_not_fails env Step.wifiInit (by decide) (hfirst _ (by decide))
      have h4 := ret_ok_of_not_fails env Step.registerWifiHandler (by decide) (hfirst _ (by decide))
      have h5 := ret_ok_of_not_fails env Step.registerIpHandler (by decide) (hfirst _ (by decide))
      have h6 := ret_ok_of_not_fails env Step.setMode (by decide) (hfirst _ (by decide))
      simp only [stepRet, ESP_OK, ESP_FAIL, ESP_ERR_INVALID_STATE] at hf h0 h3 h4 h5 h6
      rcases h1 with h1 | h1 <;>
        simp [wifi_init_sta, h0, h1, h2, h3, h4, h5, h6, hf, stepRet, bringUpOrder, stepIdx,
          ESP_OK, ESP_FAIL, ESP_ERR_INVALID_STATE]
  | wifiStart =>
      have h0 := ret_ok_of_not_fails env Step.netifInit (by decide) (hfirst _ (by decide))
      have h1 := loop_ret_of_not_fails env (hfirst _ (by decide))
      have h2 := netif_ok_of_not_fails env (hfirst _ (by decide))
      have h3 := ret_ok_of_not_fails env Step.wifiInit (by decide) (hfirst _ (by decide))
      have h4 := ret_ok_of_not_fails env Step.registerWifiHandler (by decide) (hfirst _ (by decide))
      have h5 := ret_ok_of_not_fails env Step.registerIpHandler (by decide) (hfirst _ (by decide))
      have h6 := ret_ok_of_not_fails env Step.setMode (by decide) (hfirst _ (by decide))
      have h7 := ret_ok_of_not_fails env Step.setConfig (by decide) (hfirst _ (by decide))
      simp only [stepRet, ESP_OK, ESP_FAIL, ESP_ERR_INVALID_STATE] at hf h0 h3 h4 h5 h6 h7
      rcases h1 with h1 | h1 <;>
        simp [wifi_init_sta, h0, h1, h2, h3, h4, h5, h6, h7, hf, stepRet, bringUpOrder, stepIdx,
          ESP_OK, ESP_FAIL, ESP_ERR_INVALID_STATE]

/-- C1 witness: in `envWifiInitFails` the radio-init sub-step is the first
failing one, and `wifi_init_sta` returns its status with the trace cut off
right after it. -/
theorem C1_fail_fast_witness :
    stepFails envWifiInitFails Step.wifiInit ∧
      (∀ t : Step, stepIdx t < stepIdx Step.wifiInit → ¬ stepFails envWifiInitFails t) ∧
      ((wifi_init_sta envWifiInitFails).1 = stepRet envWifiInitFails Step.wifiInit ∧
        (wifi_init_sta envWifiInitFails).1 ≠ ESP_OK ∧
        (wifi_init_sta envWifiInitFails).2 = bringUpOrder.take (stepIdx Step.wifiInit + 1)) :=
  ⟨by decide, by decide,
    C1_fail_fast envWifiInitFails Step.wifiInit (by decide) (by decide)⟩

/-! ## Claim C3 — sub-step order of a successful `wifi_init_sta` run

The claim states the order "…apply the station configuration, set station
mode, start the radio"; the source calls `esp_wifi_set_mode` (wifi.c,
line 81) before `esp_wifi_set_config` (line 86).  The claim as stated is
refuted on the all-success environment; the amended claim (mode set before
configuration application, all other sub-steps as stated) is proved below. -/

/-- C3 (counterexample to the claim as stated): on the all-success environment
the run succeeds, the trace is not the claimed order, and station mode is set
strictly before the configuration is applied. -/
theorem C3_claim_counterexample :
    (wifi_init_sta envAllOk).1 = ESP_OK ∧
      (wifi_init_sta envAllOk).2 ≠ claimedBringUpOrder ∧
      (wifi_init_sta envAllOk).2.indexOf Step.setMode <
        (wifi_init_sta envAllOk).2.indexOf Step.setConfig := by decide

/-- C3 (amended): on every successful run of `wifi_init_sta` the sub-steps
are performed in exactly this order: network-abstraction init, default event
loop, default station interface, radio init, radio-event handler
registration, IP-event handler registration, station mode set, station
configuration applied, radio started. -/
theorem C3_success_order (env : WifiEnv) (h : (wifi_init_sta env).1 = ESP_OK) :
    (wifi_init_sta env).2 = bringUpOrder := by
  revert h
  unfold wifi_init_sta
  repeat' split
  all_goals intro h
  all_goals first
    | rfl
    | (exfalso; simp_all [ESP_OK, ESP_FAIL, ESP_ERR_INVALID_STATE])

/-- C3 witness: the all-success environment yields a successful run whose
trace is exactly `bringUpOrder`. -/
theorem C3_success_order_witness :
    (wifi_init_sta envAllOk).1 = ESP_OK ∧ (wifi_init_sta envAllOk).2 = bringUpOrder :=
  ⟨by decide, C3_success_order envAllOk (by decide)⟩

/-! ## Claim C7 — an existing default event loop is tolerated -/

/-- C7: when `esp_event_loop_create_default` reports
`ESP_ERR_INVALID_STATE` (the default event loop already exists) and the
preceding sub-step succeeded, `wifi_init_sta` does not treat this as fatal:
it invokes the next sub-step, and the whole call behaves exactly as if
event-loop creation had returned `ESP_OK`. -/
theorem C7_loop_exists_tolerated (env : WifiEnv) (h1 : env.netif_init_ret = ESP_OK)
    (h2 : env.event_loop_create_ret = ESP_ERR_INVALID_STATE) :
    Step.netifCreateDefaultWifiSta ∈ (wifi_init_sta env).2 ∧
      wifi_init_sta env = wifi_init_sta (setLoopRet env ESP_OK) := by
  constructor
  · unfold wifi_init_sta
    simp only [h1, h2, ESP_OK, ESP_ERR_INVALID_STATE]
    repeat' split
    all_goals simp_all
  · simp [wifi_init_sta, setLoopRet, h1, h2, ESP_OK, ESP_ERR_INVALID_STATE]

/-- C7 witness: `envLoopExists` satisfies both hypotheses, proceeds to the
interface-creation sub-step and coincides with the all-success run. -/
theorem C7_loop_exists_tolerated_witness :
    envLoopExists.netif_init_ret = ESP_OK ∧
      envLoopExists.event_loop_create_ret = ESP_ERR_INVALID_STATE ∧
      (Step.netifCreateDefaultWifiSta ∈ (wifi_init_sta envLoopExists).2 ∧
        wifi_init_sta envLoopExists = wifi_init_sta (setLoopRet envLoopExists ESP_OK)) :=
  ⟨by decide, by decide,
    C7_loop_exists_tolerated envLoopExists (by decide) (by decide)⟩

/-! ## Claim C2 — one reconnect attempt per disconnection event -/

/-- C2: every station-disconnected event delivered to `wifi_event_handler`
triggers exactly one `esp_wifi_connect` call, whatever the payload — there is
no retry limit, backoff state, or debouncing in the handler — and hence any
sequence of such events triggers exactly as many reconnect attempts as there
are events. -/
theorem C2_reconnect_per_disconnect :
    (∀ d : EventData,
        (wifi_event_handler EventBase.wifiEvent WIFI_EVENT_STA_DISCONNECTED d).count
          HandlerAction.wifiConnect = 1) ∧
      (∀ ds : List EventData,
        (ds.map fun d =>
          (wifi_event_handler EventBase.wifiEvent WIFI_EVENT_STA_DISCONNECTED d).count
            HandlerAction.wifiConnect).sum = ds.length) := by
  have h1 : ∀ d : EventData,
      (wifi_event_handler EventBase.wifiEvent WIFI_EVENT_STA_DISCONNECTED d).count
        HandlerAction.wifiConnect = 1 := by
    intro d
    rfl
  refine ⟨h1, ?_⟩
  intro ds
  induction ds with
  | nil => simp
  | cons d ds ih => simp [h1, ih, Nat.add_comm]

/-! ## Claim C4 — the streaming task never terminates and logs once per
second -/

/-- C4: at every iteration `audio_stream_task` is still running — the `while
(1)` guard never lets it terminate — and the body it executes emits exactly
one "send" informational log line, exactly one "receive" informational log
line, and then the fixed one-second suspension as its final action. -/
theorem C4_stream_task_forever :
    (∀ n : Nat, audio_stream_task n ≠ TaskStatus.terminated) ∧
      (∀ n : Nat, audio_stream_task n = TaskStatus.running audio_stream_body) ∧
      audio_stream_body.count audio_send_log = 1 ∧
      audio_stream_body.count audio_receive_log = 1 ∧
      audio_stream_body.getLast? = some (TaskAction.delayMs 1000) := by
  refine ⟨?_, ?_, by decide, by decide, by decide⟩
  · intro n
    simp [audio_stream_task, audio_stream_guard]
  · intro n
    simp [audio_stream_task, audio_stream_guard]

/-! ## Claim C5 — the logged IP address equals the payload address -/

set_option maxRecDepth 4000 in
lemma byteChars_eq_repr : ∀ b : Fin 256, byteChars b.val = (toString b.val).data := by decide

set_option maxRecDepth 4000 in
lemma byteChars_len : ∀ b : Fin 256, (byteChars b.val).length ≤ 3 := by decide

lemma ntoa_eq_dottedDecimal (p : GotIpPayload) : esp_ip4addr_ntoa p = dottedDecimal p := by
  apply String.ext
  simp [esp_ip4addr_ntoa, dottedDecimal, String.data_append,
    byteChars_eq_repr p.oct0, byteChars_eq_repr p.oct1,
    byteChars_eq_repr p.oct2, byteChars_eq_repr p.oct3]

/-- C5: for every IP-acquired event, the handler produces exactly one log
line, and the address written into it is the payload address rendered in
standard dotted-decimal form; moreover the rendered address fits the 16-byte
`ip_str` buffer of wifi.c (at most 15 characters). -/
theorem C5_ip_log_exact (p : GotIpPayload) :
    wifi_event_handler EventBase.ipEvent IP_EVENT_STA_GOT_IP (EventData.gotIp p) =
      [HandlerAction.logInfo ("Connected, got IP: " ++ dottedDecimal p)] ∧
      (esp_ip4addr_ntoa p).length ≤ 15 := by
  constructor
  · simp [wifi_event_handler, WIFI_EVENT_STA_START, WIFI_EVENT_STA_DISCONNECTED,
      IP_EVENT_STA_GOT_IP, ntoa_eq_dottedDecimal]
  · have l0 := byteChars_len p.oct0
    have l1 := byteChars_len p.oct1
    have l2 := byteChars_len p.oct2
    have l3 := byteChars_len p.oct3
    simp only [esp_ip4addr_ntoa, String.length_mk, List.length_append, List.length_cons]
    omega

/-! ## Claim C6 — station credentials copied exactly, truncated and
NUL-terminated -/

lemma takeWhile_append_nonzero (l r : List Nat) (h : ∀ b ∈ l, b ≠ 0) :
    (l ++ r).takeWhile (fun b => b != 0) = l ++ r.takeWhile (fun b => b != 0) := by
  induction l with
  | nil => simp
  | cons a l ih =>
      have ha : (a != 0) = true := by
        simpa using h a (List.mem_cons_self a l)
      simp only [List.cons_append, List.takeWhile_cons, ha, if_pos]
      rw [ih (fun b hb => h b (List.mem_cons_of_mem a hb))]

lemma takeWhile_replicate_zero (k : Nat) :
    (List.replicate k 0).takeWhile (fun b : Nat => b != 0) = [] := by
  cases k with
  | zero => rfl
  | succ k => simp [List.replicate_succ, List.takeWhile_cons]

lemma strlcpy_zeroed_content (src : List Nat) (size : Nat) (h : ∀ b ∈ src, b ≠ 0) :
    (strlcpy_zeroed src size).takeWhile (fun b => b != 0) = src.take (size - 1) := by
  unfold strlcpy_zeroed
  rw [takeWhile_append_nonzero _ _ (fun b hb => h b (List.mem_of_mem_take hb)),
    takeWhile_replicate_zero, List.append_nil]

lemma strlcpy_zeroed_length (src : List Nat) (size : Nat) (h : 0 < size) :
    (strlcpy_zeroed src size).length = size := by
  unfold strlcpy_zeroed
  simp only [List.length_append, List.length_take, List.length_replicate]
  omega

lemma strlcpy_zeroed_tail_zero (src : List Nat) (size : Nat) :
    ∀ b ∈ (strlcpy_zeroed src size).drop (min src.length (size - 1)), b = 0 := by
  unfold strlcpy_zeroed
  intro b hb
  rw [show min src.length (size - 1) = (src.take (size - 1)).length by
        simp [List.length_take, Nat.min_comm],
    List.drop_left] at hb
  exact (List.eq_of_mem_replicate hb)

/-- C6: for every pair of configured credentials (byte lists of the C strings,
hence NUL-free), the `ssid` and `password` fields of the `wifi_config_t`
passed to `esp_wifi_set_config` hold exactly the configured bytes truncated to
the field capacity (`size - 1` bytes: 31 for the SSID, 63 for the password) —
in particular the untruncated value whenever it fits — are NUL-terminated
(every byte after the copied content is zero), and fill the platform's field
length exactly. -/
theorem C6_config_credentials (ssid password : List Nat)
    (hs : ∀ b ∈ ssid, b ≠ 0) (hp : ∀ b ∈ password, b ≠ 0) :
    ((build_wifi_config ssid password).ssid.takeWhile (fun b => b != 0) =
        ssid.take (ssidFieldSize - 1) ∧
      (ssid.length ≤ ssidFieldSize - 1 →
        (build_wifi_config ssid password).ssid.takeWhile (fun b => b != 0) = ssid) ∧
      (∀ b ∈ (build_wifi_config ssid password).ssid.drop
          (min ssid.length (ssidFieldSize - 1)), b = 0) ∧
      (build_wifi_config ssid password).ssid.length = ssidFieldSize) ∧
    ((build_wifi_config ssid password).password.takeWhile (fun b => b != 0) =
        password.take (passwordFieldSize - 1) ∧
      (password.length ≤ passwordFieldSize - 1 →
        (build_wifi_config ssid password).password.takeWhile (fun b => b != 0) = password) ∧
      (∀ b ∈ (build_wifi_config ssid password).password.drop
          (min password.length (passwordFieldSize - 1)), b = 0) ∧
      (build_wifi_config ssid password).password.length = passwordFieldSize) := by
  refine ⟨⟨?_, ?_, ?_, ?_⟩, ?_, ?_, ?_, ?_⟩
  · exact strlcpy_zeroed_content ssid ssidFieldSize hs
  · intro hlen
    show (strlcpy_zeroed ssid ssidFieldSize).takeWhile (fun b => b != 0) = ssid
    rw [strlcpy_zeroed_content ssid ssidFieldSize hs, List.take_of_length_le hlen]
  · exact strlcpy_zeroed_tail_zero ssid ssidFieldSize
  · exact strlcpy_zeroed_length ssid ssidFieldSize (by decide)
  · exact strlcpy_zeroed_content password passwordFieldSize hp
  · intro hlen
    show (strlcpy_zeroed password passwordFieldSize).takeWhile (fun b => b != 0) = password
    rw [strlcpy_zeroed_content password passwordFieldSize hp, List.take_of_length_le hlen]
  · exact strlcpy_zeroed_tail_zero password passwordFieldSize
  · exact strlcpy_zeroed_length password passwordFieldSize (by decide)

/-- C6 witness: concrete credentials — the bytes of "ssid" and of a 70-byte
password that exceeds the 64-byte field and is therefore truncated. -/
theorem C6_config_credentials_witness :
    (∀ b ∈ [115, 115, 105, 100], b ≠ (0 : Nat)) ∧
      (∀ b ∈ List.replicate 70 (112 : Nat), b ≠ 0) ∧
      (((build_wifi_config [115, 115, 105, 100] (List.replicate 70 112)).ssid.takeWhile
            (fun b => b != 0) = [115, 115, 105, 100].take (ssidFieldSize - 1) ∧
          ([115, 115, 105, 100].length ≤ ssidFieldSize - 1 →
            (build_wifi_config [115, 115, 105, 100] (List.replicate 70 112)).ssid.takeWhile
              (fun b => b != 0) = [115, 115, 105, 100]) ∧
          (∀ b ∈ (build_wifi_config [115, 115, 105, 100]
              (List.replicate 70 112)).ssid.drop
              (min ([115, 115, 105, 100] : List Nat).length (ssidFieldSize - 1)), b = 0) ∧
          (build_wifi_config [115, 115, 105, 100]
            (List.replicate 70 112)).ssid.length = ssidFieldSize) ∧
        ((build_wifi_config [115, 115, 105, 100]
              (List.replicate 70 112)).password.takeWhile (fun b => b != 0) =
            (List.replicate 70 (112 : Nat)).take (passwordFieldSize - 1) ∧
          ((List.replicate 70 (112 : Nat)).length ≤ passwordFieldSize - 1 →
            (build_wifi_config [115, 115, 105, 100]
              (List.replicate 70 112)).password.takeWhile (fun b => b != 0) =
              List.replicate 70 112) ∧
          (∀ b ∈ (build_wifi_config [115, 115, 105, 100]
              (List.replicate 70 112)).password.drop
              (min (List.replicate 70 (112 : Nat)).length (passwordFieldSize - 1)), b = 0) ∧
          (build_wifi_config [115, 115, 105, 100]
            (List.replicate 70 112)).password.length = passwordFieldSize)) :=
  ⟨by decide, by decide,
    C6_config_credentials [115, 115, 105, 100] (List.replicate 70 112)
      (by decide) (by decide)⟩

/-! ## Helper lemmas about `app_main` -/

lemma after_nvs_halted (env : MainEnv) (ret : Int) (tr : List MainAction) (h : ret ≠ ESP_OK) :
    app_main_after_nvs env ret tr = (MainOutcome.halted, tr) := by
  simp [app_main_after_nvs, h]

lemma after_nvs_wifi_fail (env : MainEnv) (tr : List MainAction)
    (h : (wifi_init_sta env.wifiEnv).1 ≠ ESP_OK) :
    app_main_after_nvs env ESP_OK tr =
      (MainOutcome.halted,
        tr ++ [MainAction.logInfo "Initializing Wi-Fi...", MainAction.callWifiInitSta]) := by
  simp [app_main_after_nvs, h]

lemma after_nvs_wifi_ok (env : MainEnv) (tr : List MainAction)
    (h : (wifi_init_sta env.wifiEnv).1 = ESP_OK) :
    app_main_after_nvs env ESP_OK tr =
      (MainOutcome.returned,
        tr ++ [MainAction.logInfo "Initializing Wi-Fi...", MainAction.callWifiInitSta,
          MainAction.logInfo "Starting audio stream task...",
          MainAction.callTaskCreate "audio_stream" env.task_create_pass] ++
        (if env.task_create_pass then []
         else [MainAction.logError "Failed to create audio_stream_task"])) := by
  by_cases ht : env.task_create_pass <;> simp [app_main_after_nvs, h, ht]

lemma after_nvs_count_nvsInit (env : MainEnv) (ret : Int) (tr : List MainAction) :
    ((app_main_after_nvs env ret tr).2).count MainAction.nvsFlashInit =
      tr.count MainAction.nvsFlashInit := by
  unfold app_main_after_nvs
  repeat' split
  all_goals simp [List.count_append]

lemma after_nvs_mem_mono (env : MainEnv) (ret : Int) (tr : List MainAction) (a : MainAction)
    (h : a ∈ tr) : a ∈ (app_main_after_nvs env ret tr).2 := by
  unfold app_main_after_nvs
  repeat' split
  all_goals simp_all

lemma after_nvs_erase_not_mem (env : MainEnv) (ret : Int) (tr : List MainAction)
    (h : MainAction.nvsFlashErase ∉ tr) :
    MainAction.nvsFlashErase ∉ (app_main_after_nvs env ret tr).2 := by
  unfold app_main_after_nvs
  repeat' split
  all_goals simp_all

lemma after_nvs_wifi_mem_iff (env : MainEnv) (ret : Int) (tr : List MainAction)
    (h : MainAction.callWifiInitSta ∉ tr) :
    MainAction.callWifiInitSta ∈ (app_main_after_nvs env ret tr).2 ↔ ret = ESP_OK := by
  unfold app_main_after_nvs
  repeat' split
  all_goals simp_all

lemma app_main_special (env : MainEnv)
    (h : env.nvs_init_ret1 = ESP_ERR_NVS_NO_FREE_PAGES ∨
      env.nvs_init_ret1 = ESP_ERR_NVS_NEW_VERSION_FOUND) :
    app_main env =
      if env.nvs_erase_ret ≠ ESP_OK then
        (MainOutcome.halted, [MainAction.nvsFlashInit, MainAction.nvsFlashErase])
      else
        app_main_after_nvs env env.nvs_init_ret2
          [MainAction.nvsFlashInit, MainAction.nvsFlashErase, MainAction.nvsFlashInit] := by
  rcases h with h | h <;> simp [app_main, h]

lemma app_main_normal (env : MainEnv)
    (h : ¬(env.nvs_init_ret1 = ESP_ERR_NVS_NO_FREE_PAGES ∨
      env.nvs_init_ret1 = ESP_ERR_NVS_NEW_VERSION_FOUND)) :
    app_main env = app_main_after_nvs env env.nvs_init_ret1 [MainAction.nvsFlashInit] := by
  simp [app_main, h]

/-! ## Claim C8 — the streaming task is spawned immediately and
unconditionally after successful bring-up -/

/-- C8: when the NVS phase hands `ESP_ERROR_CHECK` a success status, then:
if Wi-Fi bring-up returns success, `app_main` returns normally and its trace
performs `xTaskCreate` directly after the bring-up call (only the task log
line in between, nothing gated on connection or IP state — the creation is
recorded whatever `xTaskCreate` then returns); if bring-up returns any
non-success status, `app_main` halts and `xTaskCreate` is never invoked. -/
theorem C8_task_spawn_unconditional (env : MainEnv) (hnvs : nvsPhaseOk env) :
    ((wifi_init_sta env.wifiEnv).1 = ESP_OK →
      (app_main env).1 = MainOutcome.returned ∧
      ∃ pre,
        (app_main env).2 =
          pre ++
            [MainAction.callWifiInitSta, MainAction.logInfo "Starting audio stream task...",
              MainAction.callTaskCreate "audio_stream" env.task_create_pass] ++
            (if env.task_create_pass then []
             else [MainAction.logError "Failed to create audio_stream_task"])) ∧
    ((wifi_init_sta env.wifiEnv).1 ≠ ESP_OK →
      (app_main env).1 = MainOutcome.halted ∧
      ∀ b : Bool, MainAction.callTaskCreate "audio_stream" b ∉ (app_main env).2) := by
  by_cases hspec : env.nvs_init_ret1 = ESP_ERR_NVS_NO_FREE_PAGES ∨
      env.nvs_init_ret1 = ESP_ERR_NVS_NEW_VERSION_FOUND
  · simp only [nvsPhaseOk, hspec, if_pos] at hnvs
    rw [app_main_special env hspec, if_neg (by simp [hnvs.1])]
    constructor
    · intro hw
      rw [hnvs.2, after_nvs_wifi_ok env _ hw]
      refine ⟨rfl, [MainAction.nvsFlashInit, MainAction.nvsFlashErase, MainAction.nvsFlashInit,
        MainAction.logInfo "Initializing Wi-Fi..."], by simp⟩
    · intro hw
      rw [hnvs.2, after_nvs_wifi_fail env _ hw]
      exact ⟨rfl, by simp⟩
  · simp only [nvsPhaseOk, hspec, if_neg] at hnvs
    rw [app_main_normal env hspec, hnvs]
    constructor
    · intro hw
      rw [after_nvs_wifi_ok env _ hw]
      refine ⟨rfl, [MainAction.nvsFlashInit, MainAction.logInfo "Initializing Wi-Fi..."],
        by simp⟩
    · intro hw
      rw [after_nvs_wifi_fail env _ hw]
      exact ⟨rfl, by simp⟩

/-- Environment for the C8 witness: NVS succeeds at once, every Wi-Fi SDK
call succeeds, task creation succeeds. -/
def envMainAllOk : MainEnv := ⟨0, 0, 0, envAllOk, true⟩

/-- C8 witness: in `envMainAllOk` bring-up succeeds and `app_main` returns
normally with the task-creation call directly after the bring-up call. -/
theorem C8_task_spawn_unconditional_witness :
    nvsPhaseOk envMainAllOk ∧
      (wifi_init_sta envMainAllOk.wifiEnv).1 = ESP_OK ∧
      ((app_main envMainAllOk).1 = MainOutcome.returned ∧
        ∃ pre,
          (app_main envMainAllOk).2 =
            pre ++
              [MainAction.callWifiInitSta, MainAction.logInfo "Starting audio stream task...",
                MainAction.callTaskCreate "audio_stream" envMainAllOk.task_create_pass] ++
              (if envMainAllOk.task_create_pass then []
               else [MainAction.logError "Failed to create audio_stream_task"])) :=
  ⟨by decide, by decide,
    (C8_task_spawn_unconditional envMainAllOk (by decide)).1 (by decide)⟩

/-! ## Claim C9 — NVS erase-and-retry path of `app_main`

The claim states that a first `nvs_flash_init` returning no-free-pages or
new-version-found leads to an erase and exactly one retry.  The code wraps
the erase in `ESP_ERROR_CHECK` (main.c, line 17): when the erase itself
fails, startup halts and the retry never happens, refuting the claim as
stated.  The amended claim adds that proviso and is proved in full below. -/

/-- Environment in which the first `nvs_flash_init` reports no-free-pages and
the erase fails. -/
def envNvsEraseFails : MainEnv := ⟨0x110d, -1, 0, envAllOk, true⟩

/-- Environment in which the first `nvs_flash_init` reports no-free-pages,
the erase succeeds, and the retry (and everything after) succeeds. -/
def envNvsRetryOk : MainEnv := ⟨0x110d, 0, 0, envAllOk, true⟩

/-- C9 (counterexample to the claim as stated): in `envNvsEraseFails` the
first initialization fails with the no-free-pages status, yet initialization
is not retried — `nvs_flash_init` appears only once in the trace — because
the failing erase halts startup first. -/
theorem C9_claim_counterexample :
    envNvsEraseFails.nvs_init_ret1 = ESP_ERR_NVS_NO_FREE_PAGES ∧
      (app_main envNvsEraseFails).2.count MainAction.nvsFlashInit = 1 ∧
      (app_main envNvsEraseFails).1 = MainOutcome.halted := by decide

/-- C9 (amended): before Wi-Fi bring-up `app_main` initializes non-volatile
storage; if that fails with the no-free-pages or new-version-found status the
storage erase is attempted, a failure of the erase itself halting startup
without a retry; otherwise initialization is retried exactly once, any
non-success status of the retry halts startup, and a success proceeds to
Wi-Fi bring-up.  With any other first status there is no erase and no retry:
non-success halts startup, success proceeds to Wi-Fi bring-up. -/
theorem C9_nvs_retry (env : MainEnv) :
    ((env.nvs_init_ret1 = ESP_ERR_NVS_NO_FREE_PAGES ∨
        env.nvs_init_ret1 = ESP_ERR_NVS_NEW_VERSION_FOUND) →
      MainAction.nvsFlashErase ∈ (app_main env).2 ∧
      (env.nvs_erase_ret ≠ ESP_OK →
        (app_main env).1 = MainOutcome.halted ∧
        (app_main env).2.count MainAction.nvsFlashInit = 1 ∧
        MainAction.callWifiInitSta ∉ (app_main env).2) ∧
      (env.nvs_erase_ret = ESP_OK →
        (app_main env).2.count MainAction.nvsFlashInit = 2 ∧
        (env.nvs_init_ret2 ≠ ESP_OK →
          (app_main env).1 = MainOutcome.halted ∧
          MainAction.callWifiInitSta ∉ (app_main env).2) ∧
        (env.nvs_init_ret2 = ESP_OK → MainAction.callWifiInitSta ∈ (app_main env).2))) ∧
    (¬(env.nvs_init_ret1 = ESP_ERR_NVS_NO_FREE_PAGES ∨
        env.nvs_init_ret1 = ESP_ERR_NVS_NEW_VERSION_FOUND) →
      MainAction.nvsFlashErase ∉ (app_main env).2 ∧
      (app_main env).2.count MainAction.nvsFlashInit = 1 ∧
      (env.nvs_init_ret1 ≠ ESP_OK →
        (app_main env).1 = MainOutcome.halted ∧
        MainAction.callWifiInitSta ∉ (app_main env).2) ∧
      (env.nvs_init_ret1 = ESP_OK → MainAction.callWifiInitSta ∈ (app_main env).2)) := by
  constructor
  · intro hspec
    rw [app_main_special env hspec]
    by_cases he : env.nvs_erase_ret = ESP_OK
    · rw [if_neg (by simp [he])]
      refine ⟨after_nvs_mem_mono env _ _ _ (by simp), fun h' => absurd he h', fun _ => ?_⟩
      refine ⟨?_, fun h2 => ?_, fun h2 => ?_⟩
      · rw [after_nvs_count_nvsInit]
        decide
      · rw [after_nvs_halted env _ _ h2]
        exact ⟨rfl, by decide⟩
      · rw [after_nvs_wifi_mem_iff env _ _ (by decide)]
        exact h2
    · rw [if_pos he]
      exact ⟨by decide, fun _ => ⟨rfl, by decide, by decide⟩, fun h' => absurd h' he⟩
  · intro hspec
    rw [app_main_normal env hspec]
    refine ⟨after_nvs_erase_not_mem env _ _ (by decide), ?_, fun h1 => ?_, fun h1 => ?_⟩
    · rw [after_nvs_count_nvsInit]
      decide
    · rw [after_nvs_halted env _ _ h1]
      exact ⟨rfl, by decide⟩
    · rw [after_nvs_wifi_mem_iff env _ _ (by decide)]
      exact h1

/-- C9 witness: in `envNvsRetryOk` the first initialization reports
no-free-pages, the erase succeeds, the retry appears in the trace (exactly
two `nvs_flash_init` calls) and startup proceeds to Wi-Fi bring-up. -/
theorem C9_nvs_retry_witness :
    (envNvsRetryOk.nvs_init_ret1 = ESP_ERR_NVS_NO_FREE_PAGES ∨
        envNvsRetryOk.nvs_init_ret1 = ESP_ERR_NVS_NEW_VERSION_FOUND) ∧
      (MainAction.nvsFlashErase ∈ (app_main envNvsRetryOk).2 ∧
        (envNvsRetryOk.nvs_erase_ret ≠ ESP_OK →
          (app_main envNvsRetryOk).1 = MainOutcome.halted ∧
          (app_main envNvsRetryOk).2.count MainAction.nvsFlashInit = 1 ∧
          MainAction.callWifiInitSta ∉ (app_main envNvsRetryOk).2) ∧
        (envNvsRetryOk.nvs_erase_ret = ESP_OK →
          (app_main envNvsRetryOk).2.count MainAction.nvsFlashInit = 2 ∧
          (envNvsRetryOk.nvs_init_ret2 ≠ ESP_OK →
            (app_main envNvsRetryOk).1 = MainOutcome.halted ∧
            MainAction.callWifiInitSta ∉ (app_main envNvsRetryOk).2) ∧
          (envNvsRetryOk.nvs_init_ret2 = ESP_OK →
            MainAction.callWifiInitSta ∈ (app_main envNvsRetryOk).2))) :=
  ⟨Or.inl (by decide), (C9_nvs_retry envNvsRetryOk).1 (Or.inl (by decide))⟩

/-! ## Claim C10 — task-creation failure is logged but not fatal -/

/-- C10: when startup reaches task creation (NVS phase and Wi-Fi bring-up
succeeded) and `xTaskCreate` does not return `pdPASS`, `app_main` logs the
task-creation error and still returns normally — unlike a bring-up failure it
does not halt — and no successfully-created streaming task exists. -/
theorem C10_task_create_failure_nonfatal (env : MainEnv) (hnvs : nvsPhaseOk env)
    (hw : (wifi_init_sta env.wifiEnv).1 = ESP_OK) (ht : env.task_create_pass = false) :
    (app_main env).1 = MainOutcome.returned ∧
      MainAction.logError "Failed to create audio_stream_task" ∈ (app_main env).2 ∧
      MainAction.callTaskCreate "audio_stream" true ∉ (app_main env).2 := by
  by_cases hspec : env.nvs_init_ret1 = ESP_ERR_NVS_NO_FREE_PAGES ∨
      env.nvs_init_ret1 = ESP_ERR_NVS_NEW_VERSION_FOUND
  · simp only [nvsPhaseOk, hspec, if_pos] at hnvs
    rw [app_main_special env hspec, if_neg (by simp [hnvs.1]), hnvs.2,
      after_nvs_wifi_ok env _ hw, ht]
    refine ⟨rfl, by simp, by simp⟩
  · simp only [nvsPhaseOk, hspec, if_neg] at hnvs
    rw [app_main_normal env hspec, hnvs, after_nvs_wifi_ok env _ hw, ht]
    refine ⟨rfl, by simp, by simp⟩

/-- Environment for the C10 witness: NVS and Wi-Fi succeed, `xTaskCreate`
fails. -/
def envTaskCreateFails : MainEnv := ⟨0, 0, 0, envAllOk, false⟩

/-- C10 witness: in `envTaskCreateFails` startup reaches task creation, the
creation fails, the error is logged, and `app_main` still returns normally. -/
theorem C10_task_create_failure_nonfatal_witness :
    nvsPhaseOk envTaskCreateFails ∧
      (wifi_init_sta envTaskCreateFails.wifiEnv).1 = ESP_OK ∧
      envTaskCreateFails.task_create_pass = false ∧
      ((app_main envTaskCreateFails).1 = MainOutcome.returned ∧
        MainAction.logError "Failed to create audio_stream_task" ∈
          (app_main envTaskCreateFails).2 ∧
        MainAction.callTaskCreate "audio_stream" true ∉ (app_main envTaskCreateFails).2) :=
  ⟨by decide, by decide, by decide,
    C10_task_create_failure_nonfatal envTaskCreateFails (by decide) (by decide) (by decide)⟩

end SendingStoneStack
